import Mathlib

/-!
Shallow embedding of the connection/correlation/dispatch engine of
`mopidy_client/client.py` (class `Client`).

Modelling conventions:
* JSON scalar values are embedded directly; composite JSON values (arrays,
  objects, and the typed substitutes produced by the injected decoding hook)
  are carried opaquely by the `comp` constructor, since the engine never
  inspects them: it only tests key presence on the top-level object, reads
  integer `id` fields and string `event` fields, and passes every other value
  through untouched.
* A decoded top-level JSON object is an association list `Msg` in key
  insertion order, mirroring a Python `dict`.
* Effects of the Python methods (task creation via `asyncio.create_task`,
  `Future` resolution, transport writes, log statements) are reified as an
  ordered `List Action`; Python exceptions become the `Except PyErr` error
  branch.
* Event handlers are opaque callables, represented by `Nat` tokens.
* The class attribute `Client._msg_id` (shared by every instance in the
  process) is threaded explicitly as a `Nat` counter.
-/

namespace MopidyClient

/-- A decoded JSON value, as produced by `json.loads` with the
`model_json_decoder` object hook.  Composite values are opaque (`comp`). -/
inductive JVal where
  | null
  | bool (b : Bool)
  | num (n : Int)
  | str (s : String)
  | comp (data : String)
  deriving Repr, DecidableEq

/-- A decoded top-level JSON object: a Python `dict` in insertion order. -/
abbrev Msg := List (String × JVal)

/-- Python exceptions raised by the paths modelled here.
`connectionError` stands for the Python builtin `ConnectionError`; the code
under test never constructs it (its `NotConnectedError` derives from plain
`Exception`).  `jsonParse` is the `ValueError`/`JSONDecodeError` raised by
`json.loads` on malformed input. -/
inductive PyErr where
  | notConnected (msg : String)
  | connectionError (msg : String)
  | jsonParse
  deriving Repr, DecidableEq

/-- Outcome of one `websocket_connect` attempt inside `Client._connect`.
`httpError` is tornado's `HTTPClientError`, the only exception the retry
loop catches; any other exception propagates (`otherError`). -/
inductive AttemptOutcome where
  | success
  | httpError (code : Nat)
  | otherError (e : PyErr)
  deriving Repr, DecidableEq

/-- The outbound JSON-RPC envelope built by `Client.call`:
`data = {"jsonrpc": "2.0", "id": ..., "method": method, "params": kwargs}`. -/
structure Request where
  jsonrpc : String
  id : Int
  method : String
  params : Msg
  deriving Repr, DecidableEq

/-- Reified side effects of the `Client` methods, in program order. -/
inductive Action where
  | scheduleReconnect
  | scheduleDispatch (event : JVal) (payload : Msg)
  | resolveResult (id : Int) (result : JVal)
  | resolveError (id : Int) (err : JVal)
  | send (frame : Request)
  | closeTransport
  | log (line : String)
  deriving Repr, DecidableEq

/-- The mutable per-instance state of a `Client`.  `req` holds the keys of
`self._req` (the ids of the pending, unresolved requests) in insertion
order; `listeners` is `self._listeners` with handlers as opaque tokens. -/
structure ClientState where
  wsUrl : String
  connected : Bool
  autoReconnect : Bool
  retries : Nat
  connectArgs : Msg
  listeners : List (String × List Nat)
  req : List Int
  deriving Repr, DecidableEq

/-- Python `dict` assignment `m[k] = v`: replaces the value in place when the
key exists, otherwise appends the new entry. -/
def dictSet (m : Msg) (k : String) (v : JVal) : Msg :=
  if (m.lookup k).isSome then m.map (fun p => if p.1 = k then (k, v) else p)
  else m ++ [(k, v)]

/-- Python `dict.pop(k)`, the remaining mapping (`message.pop("event")`). -/
def dictPop (m : Msg) (k : String) : Msg :=
  m.filter (fun p => p.1 ≠ k)

/-- `Client.on_event`: `self._listeners.setdefault(event, [])` followed by
`self._listeners[event].append(handler)`. -/
def onEvent (l : List (String × List Nat)) (event : String) (handler : Nat) :
    List (String × List Nat) :=
  if (l.lookup event).isSome then
    l.map (fun p => if p.1 = event then (event, p.2 ++ [handler]) else p)
  else l ++ [(event, [handler])]

/-- Python `list.remove(h)`: removes the first occurrence. -/
def removeFirst : List Nat → Nat → List Nat
  | [], _ => []
  | x :: xs, h => if x = h then xs else removeFirst xs h |> (x :: ·)

/-- The unsubscribe closure returned by `Client.on_event`:
`self._listeners[event].remove(handler)`. -/
def unsubscribe (l : List (String × List Nat)) (event : String) (handler : Nat) :
    List (String × List Nat) :=
  l.map (fun p => if p.1 = event then (event, removeFirst p.2 handler) else p)

/-- The handler invocations performed by `Client.dispatch(event, data)`:
`asyncio.gather(*[listener(**data) for listener in self._listeners[event]])`
guarded by `if event in self._listeners`.  Each invocation pairs a handler
with the keyword-argument mapping it receives. -/
def dispatchInvocations (listeners : List (String × List Nat)) (event : String)
    (data : Msg) : List (Nat × Msg) :=
  match listeners.lookup event with
  | some hs => hs.map (fun h => (h, data))
  | none => []

/-- The two phases of `Client.dispatch` relevant to concurrent mutation: the
list comprehension builds every `listener(**data)` coroutine from the live
listener list *before* `gather` first suspends, so any mutation `duringAwait`
of the listener map performed while the fan-out is awaited (for example an
unsubscribe executed by one of the handlers) happens after the invocation
list is already fixed. -/
def dispatchRun (listeners : List (String × List Nat)) (event : String)
    (data : Msg) (duringAwait : List (String × List Nat) → List (String × List Nat)) :
    List (Nat × Msg) × List (String × List Nat) :=
  (dispatchInvocations listeners event data, duringAwait listeners)

/-- One inbound transport delivery to the `on_message_callback`.
`empty` is falsy data (`None` on stream close, or an empty text frame), the
branch taken by `if not data`.  `text (some m)` is a frame whose body parses
to the JSON object `m`; `text none` is a frame whose body `json.loads`
cannot parse. -/
inductive Frame where
  | empty
  | text (parsed : Option Msg)
  deriving Repr, DecidableEq

/-- `Client.on_message`, the read-loop callback.  Returns the reified effect
list and the updated state, or the Python exception that escapes the
callback.  The `json.loads` call on line 187 of `client.py` is not guarded
(the source carries a `TODO: catch parse exception` comment), so an
unparseable frame raises out of the handler: `.error .jsonParse`. -/
def onMessage (s : ClientState) (f : Frame) : Except PyErr (List Action × ClientState) :=
  match f with
  | .empty =>
      if s.autoReconnect then
        .ok ([.log "Disconnected from %s", .log "Reconnecting", .scheduleReconnect],
          { s with connected := false })
      else
        .ok ([.log "Disconnected from %s"], { s with connected := false })
  | .text none => .error .jsonParse
  | .text (some message) =>
      if (message.lookup "jsonrpc").isSome then
        match message.lookup "id" with
        | some (.num n) =>
            if n ∈ s.req then
              let s' := { s with req := s.req.erase n }
              match message.lookup "error" with
              | some e => .ok ([.resolveError n e], s')
              | none =>
                  match message.lookup "result" with
                  | some r => .ok ([.resolveResult n r], s')
                  | none => .ok ([.log "Unknown message %s", .resolveResult n .null], s')
            else .ok ([.log "Nobody cares about JSON-RPC Response %d"], s)
        | some _ => .ok ([.log "Nobody cares about JSON-RPC Response %d"], s)
        | none => .ok ([.log "No ID set in incoming jsonrpc response"], s)
      else
        match message.lookup "event" with
        | some ev => .ok ([.scheduleDispatch ev (dictPop message "event")], s)
        | none => .ok ([.log "Received unknown message: %s"], s)

/-- `Client._next_msg_id`: `cls._msg_id += 1; return cls._msg_id` on the
class attribute shared by every instance.  First component: the id returned;
second: the new counter value. -/
def nextMsgId (msgId : Nat) : Nat × Nat :=
  (msgId + 1, msgId + 1)

/-- The ids handed out by `n` consecutive `_next_msg_id` calls (any mix of
client instances: the counter is a class attribute) starting from counter
value `c`. -/
def issuedIds : Nat → Nat → List Nat
  | _, 0 => []
  | c, n + 1 => (nextMsgId c).1 :: issuedIds (nextMsgId c).2 n

/-- The request envelope `Client.call` builds for a fresh id. -/
def encodeRequest (id : Int) (method : String) (params : Msg) : Request :=
  { jsonrpc := "2.0", id := id, method := method, params := params }

/-- The suffix of `Client.call` past the connectivity check: allocate the id,
register the future in `self._req`, write the encoded frame. `pre` carries
the effects of the connectivity check that preceded it. -/
def callSend (pre : List Action) (msgId : Nat) (s : ClientState) (method : String)
    (params : Msg) : Except PyErr (List Action) × Nat × ClientState :=
  let r := nextMsgId msgId
  (.ok (pre ++ [.send (encodeRequest (r.1 : Int) method params)]), r.2,
    { s with req := s.req ++ [(r.1 : Int)] })

/-- `Client.call(method, **kwargs)` up to its suspension on the response
future.  Result: the effects in program order, the counter after the call,
and the state after the call; `.error` when the method raises.  When
disconnected with auto-reconnect enabled, the code only *schedules*
`self._connect()` as a task (`asyncio.create_task`) and falls straight
through to the send — there is no await between the two, so the reconnect
has not even started when `write_message` is invoked. -/
def call (msgId : Nat) (s : ClientState) (method : String) (params : Msg) :
    Except PyErr (List Action) × Nat × ClientState :=
  if s.connected then
    callSend [] msgId s method params
  else if s.autoReconnect then
    callSend [.log "Reconnecting", .scheduleReconnect] msgId s method params
  else
    (.error (.notConnected "Not connected"), msgId, s)

/-- `Client.disconnect`: `self._connected = False; self._ws.close()`. -/
def disconnect (s : ClientState) : List Action × ClientState :=
  ([.closeTransport], { s with connected := false })

/-- Recognizes tornado's `HTTPClientError`, the only exception class the
retry loop of `Client._connect` catches. -/
def isHttpError : AttemptOutcome → Bool
  | .httpError _ => true
  | _ => false

/-- The `for i in range(self._retries)` loop of `Client._connect`, given the
outcome of each successive `websocket_connect` attempt.  `.ok true` means
the loop broke out with the connection established; `.ok false` means the
range was exhausted without success; `.error` is an uncaught exception. -/
def connectLoop (attempts : Nat → AttemptOutcome) : Nat → Nat → Except PyErr Bool
  | _, 0 => .ok false
  | i, r + 1 =>
      match attempts i with
      | .success => .ok true
      | .httpError _ => connectLoop attempts (i + 1) r
      | .otherError e => .error e

/-- The exact message of the error raised by `Client._connect` when the
retry loop ends without connecting:
`f"Failed to connect to {self._ws_url} retry timeout"`. -/
def connectFailMsg (url : String) : String :=
  "Failed to connect to " ++ url ++ " retry timeout"

/-- `Client._connect`: run the retry loop, then
`if not self._connected: raise NotConnectedError(...)`.  On a successful
attempt the loop has set `self._connected = True`. -/
def connectImpl (s : ClientState) (attempts : Nat → AttemptOutcome) :
    Except PyErr ClientState :=
  match connectLoop attempts 0 s.retries with
  | .error e => .error e
  | .ok true => .ok { s with connected := true }
  | .ok false =>
      if s.connected then .ok s
      else .error (.notConnected (connectFailMsg s.wsUrl))

/-- The keyword arguments `Client.connect` stores and later feeds to
`HTTPRequest(self._ws_url, **self._connect_args)`:
`kwargs["follow_redirects"] = False` is applied to the caller's options
before they are stored. -/
def effectiveConnectArgs (kwargs : Msg) : Msg :=
  dictSet kwargs "follow_redirects" (JVal.bool false)

/-- `Client.connect(**kwargs)`: force `follow_redirects`, store the options,
delegate to `_connect`. -/
def connect (s : ClientState) (kwargs : Msg) (attempts : Nat → AttemptOutcome) :
    Except PyErr ClientState :=
  connectImpl { s with connectArgs := effectiveConnectArgs kwargs } attempts

/-- Classifies the actions that resolve a pending request's future
(`fut.set_result` / `fut.set_exception`). -/
def isResolveAction : Action → Bool
  | .resolveResult _ _ => true
  | .resolveError _ _ => true
  | _ => false

section DictLemmas

lemma lookup_map_set_self (m : Msg) (k : String) (v : JVal)
    (h : (m.lookup k).isSome = true) :
    (m.map (fun p => if p.1 = k then (k, v) else p)).lookup k = some v := by
  induction m with
  | nil => simp [List.lookup] at h
  | cons a t ih =>
    obtain ⟨ka, va⟩ := a
    rw [List.map_cons]
    split
    · simp [List.lookup]
    · rename_i hk
      have hk2 : ka ≠ k := hk
      have hbe := beq_eq_false_iff_ne.mpr (Ne.symm hk2)
      simp only [List.lookup, hbe] at h
      simp only [List.lookup, hbe]
      exact ih h

lemma lookup_map_set_ne (m : Msg) (k k' : String) (v : JVal) (h : k' ≠ k) :
    (m.map (fun p => if p.1 = k then (k, v) else p)).lookup k' = m.lookup k' := by
  induction m with
  | nil => simp
  | cons a t ih =>
    obtain ⟨ka, va⟩ := a
    rw [List.map_cons]
    split
    · rename_i hk
      have hk2 : ka = k := hk
      rw [hk2]
      simp only [List.lookup, beq_eq_false_iff_ne.mpr h]
      exact ih
    · by_cases hk' : k' = ka
      · rw [hk']
        simp [List.lookup]
      · simp only [List.lookup, beq_eq_false_iff_ne.mpr hk']
        exact ih

lemma lookup_append_single_self (m : Msg) (k : String) (v : JVal)
    (h : m.lookup k = none) :
    (m ++ [(k, v)]).lookup k = some v := by
  induction m with
  | nil => simp [List.lookup]
  | cons a t ih =>
    obtain ⟨ka, va⟩ := a
    by_cases hk : k = ka
    · subst hk
      simp [List.lookup] at h
    · have hbe := beq_eq_false_iff_ne.mpr hk
      simp only [List.lookup, hbe] at h
      simp only [List.cons_append, List.lookup, hbe]
      exact ih h

lemma lookup_append_single_ne (m : Msg) (k k' : String) (v : JVal) (h : k' ≠ k) :
    (m ++ [(k, v)]).lookup k' = m.lookup k' := by
  induction m with
  | nil => simp [List.lookup, beq_eq_false_iff_ne.mpr h]
  | cons a t ih =>
    obtain ⟨ka, va⟩ := a
    by_cases hk : k' = ka
    · subst hk
      simp [List.cons_append, List.lookup]
    · simp only [List.cons_append, List.lookup, beq_eq_false_iff_ne.mpr hk]
      exact ih

lemma lookup_dictSet_self (m : Msg) (k : String) (v : JVal) :
    (dictSet m k v).lookup k = some v := by
  unfold dictSet
  by_cases h : (m.lookup k).isSome = true
  · rw [if_pos h]
    exact lookup_map_set_self m k v h
  · rw [if_neg h]
    exact lookup_append_single_self m k v (Option.not_isSome_iff_eq_none.mp h)

lemma lookup_dictSet_ne (m : Msg) (k k' : String) (v : JVal) (h : k' ≠ k) :
    (dictSet m k v).lookup k' = m.lookup k' := by
  unfold dictSet
  by_cases hs : (m.lookup k).isSome = true
  · rw [if_pos hs]
    exact lookup_map_set_ne m k k' v h
  · rw [if_neg hs]
    exact lookup_append_single_ne m k k' v h

end DictLemmas

section ListenerLemmas

lemma lookup_listeners_update_self (l : List (String × List Nat)) (e : String)
    (f : List Nat → List Nat) (h : (l.lookup e).isSome = true) :
    (l.map (fun p => if p.1 = e then (e, f p.2) else p)).lookup e
      = (l.lookup e).map f := by
  induction l with
  | nil => simp [List.lookup] at h
  | cons a t ih =>
    obtain ⟨ka, va⟩ := a
    rw [List.map_cons]
    split
    · rename_i hk
      have hk2 : ka = e := hk
      subst hk2
      simp [List.lookup]
    · rename_i hk
      have hk2 : ka ≠ e := hk
      have hbe := beq_eq_false_iff_ne.mpr (Ne.symm hk2)
      simp only [List.lookup, hbe] at h
      simp only [List.lookup, hbe]
      exact ih h

lemma lookup_listeners_append_self (l : List (String × List Nat)) (e : String)
    (v : List Nat) (h : l.lookup e = none) :
    (l ++ [(e, v)]).lookup e = some v := by
  induction l with
  | nil => simp [List.lookup]
  | cons a t ih =>
    obtain ⟨ka, va⟩ := a
    by_cases hk : e = ka
    · subst hk
      simp [List.lookup] at h
    · have hbe := beq_eq_false_iff_ne.mpr hk
      simp only [List.lookup, hbe] at h
      simp only [List.cons_append, List.lookup, hbe]
      exact ih h

/-- `on_event` subscription keeps order: with handlers `hs` already stored
for `e`, a new subscription lands at the tail of the list. -/
lemma lookup_onEvent_self (l : List (String × List Nat)) (e : String) (h : Nat) :
    (onEvent l e h).lookup e = some ((l.lookup e).getD [] ++ [h]) := by
  unfold onEvent
  by_cases hsome : (l.lookup e).isSome = true
  · rw [if_pos hsome]
    obtain ⟨hs, hx⟩ := Option.isSome_iff_exists.mp hsome
    have := lookup_listeners_update_self l e (fun xs => xs ++ [h]) hsome
    rw [hx] at this ⊢
    simpa using this
  · rw [if_neg hsome]
    have hnone : l.lookup e = none := Option.not_isSome_iff_eq_none.mp hsome
    rw [hnone]
    simpa using lookup_listeners_append_self l e [h] hnone

lemma count_map_pair (hs : List Nat) (p : Msg) (h : Nat) :
    ((hs.map (fun x => (x, p))).count (h, p)) = hs.count h := by
  induction hs with
  | nil => rfl
  | cons a t ih =>
    simp only [List.map_cons, List.count_cons, ih]
    by_cases hab : h = a
    · subst hab; simp
    · have h1 : (((a, p) == (h, p)) : Bool) = false := by
        apply beq_eq_false_iff_ne.mpr
        intro hc
        exact hab (congrArg Prod.fst hc).symm
      have h2 : ((a == h) : Bool) = false := beq_eq_false_iff_ne.mpr (Ne.symm hab)
      rw [h1, h2]

end ListenerLemmas

section ConnectLoopLemmas

lemma connectLoop_allFail (attempts : Nat → AttemptOutcome) :
    ∀ (r i : Nat), (∀ j, j < r → isHttpError (attempts (i + j)) = true) →
      connectLoop attempts i r = .ok false := by
  intro r
  induction r with
  | zero => intro i _; rfl
  | succ r ih =>
    intro i hf
    have h0 : isHttpError (attempts i) = true := by
      have := hf 0 (Nat.succ_pos r)
      simpa using this
    cases ha : attempts i with
    | success => rw [ha] at h0; simp [isHttpError] at h0
    | otherError e => rw [ha] at h0; simp [isHttpError] at h0
    | httpError code =>
      simp only [connectLoop, ha]
      exact ih (i + 1) (fun j hj => by
        have := hf (j + 1) (Nat.succ_lt_succ hj)
        have e : i + (j + 1) = i + 1 + j := by omega
        rwa [e] at this)

lemma connectLoop_firstSuccess (attempts : Nat → AttemptOutcome) :
    ∀ (m i r : Nat), m < r →
      (∀ j, j < m → isHttpError (attempts (i + j)) = true) →
      attempts (i + m) = .success →
      connectLoop attempts i r = .ok true := by
  intro m
  induction m with
  | zero =>
    intro i r hr hf hs
    obtain ⟨r', rfl⟩ : ∃ r', r = r' + 1 := ⟨r - 1, by omega⟩
    have hs' : attempts i = .success := by simpa using hs
    simp only [connectLoop, hs']
  | succ m ih =>
    intro i r hr hf hs
    obtain ⟨r', rfl⟩ : ∃ r', r = r' + 1 := ⟨r - 1, by omega⟩
    have h0 : isHttpError (attempts i) = true := by
      have := hf 0 (Nat.succ_pos m)
      simpa using this
    cases ha : attempts i with
    | success => rw [ha] at h0; simp [isHttpError] at h0
    | otherError e => rw [ha] at h0; simp [isHttpError] at h0
    | httpError code =>
      simp only [connectLoop, ha]
      refine ih (i + 1) r' (by omega) (fun j hj => ?_) ?_
      · have := hf (j + 1) (Nat.succ_lt_succ hj)
        have e : i + (j + 1) = i + 1 + j := by omega
        rwa [e] at this
      · have e : i + (m + 1) = i + 1 + m := by omega
        rwa [e] at hs

end ConnectLoopLemmas

/-- Recognizes a raised Python builtin `ConnectionError` in a `_connect`
outcome. -/
def raisedBuiltinConnectionError : Except PyErr ClientState → Bool
  | .error (.connectionError _) => true
  | _ => false

/-- C3 counterexample: with target `ws://x` and retries = 3, all three
attempts failing at transport level, `connect()` raises `NotConnectedError`
— which is a plain `Exception` subclass, not the builtin `ConnectionError`
the claim names — and its message `Failed to connect to ws://x retry
timeout` does not name the configured retry count (it contains no digit at
all). -/
theorem connect_exhausted_not_connectionError :
    connectImpl
        { wsUrl := "ws://x", connected := false, autoReconnect := true,
          retries := 3, connectArgs := [], listeners := [], req := [] }
        (fun _ => .httpError 503)
      = .error (.notConnected "Failed to connect to ws://x retry timeout") ∧
    raisedBuiltinConnectionError
        (connectImpl
          { wsUrl := "ws://x", connected := false, autoReconnect := true,
            retries := 3, connectArgs := [], listeners := [], req := [] }
          (fun _ => .httpError 503)) = false ∧
    ("Failed to connect to ws://x retry timeout".data.all
        (fun c => !c.isDigit)) = true := by
  refine ⟨rfl, rfl, by decide⟩

/-- C3 (amended): when every configured retry attempt fails with a
transport/handshake-level error (`HTTPClientError`), `connect()` on a
disconnected client fails by raising `NotConnectedError` whose message
names the target URL — `f"Failed to connect to {url} retry timeout"` — but
not the retry count. -/
theorem connect_exhausted_raises_notConnected (s : ClientState)
    (attempts : Nat → AttemptOutcome)
    (hc : s.connected = false)
    (hf : ∀ j, j < s.retries → isHttpError (attempts j) = true) :
    connectImpl s attempts
      = .error (.notConnected
          ("Failed to connect to " ++ s.wsUrl ++ " retry timeout")) := by
  have hloop : connectLoop attempts 0 s.retries = .ok false := by
    refine connectLoop_allFail attempts s.retries 0 (fun j hj => ?_)
    simpa using hf j hj
  simp [connectImpl, hloop, hc, connectFailMsg]

/-- Witness for the amended C3: three transport-level failures with
retries = 3. -/
theorem connect_exhausted_raises_notConnected_witness :
    connectImpl
        { wsUrl := "ws://localhost:6680/mopidy/ws", connected := false,
          autoReconnect := true, retries := 3, connectArgs := [],
          listeners := [], req := [] }
        (fun _ => .httpError 500)
      = .error (.notConnected
          ("Failed to connect to " ++ "ws://localhost:6680/mopidy/ws"
            ++ " retry timeout")) :=
  connect_exhausted_raises_notConnected
    { wsUrl := "ws://localhost:6680/mopidy/ws", connected := false,
      autoReconnect := true, retries := 3, connectArgs := [],
      listeners := [], req := [] }
    (fun _ => .httpError 500) rfl (by decide)

section IssuedIdLemmas

lemma issuedIds_mem_gt (c n : Nat) : ∀ x ∈ issuedIds c n, c < x := by
  induction n generalizing c with
  | zero => intro x hx; simp [issuedIds] at hx
  | succ n ih =>
    intro x hx
    simp only [issuedIds, nextMsgId, List.mem_cons] at hx
    rcases hx with rfl | hx
    · omega
    · have := ih (c + 1) x hx
      omega

lemma issuedIds_pairwise (c n : Nat) :
    List.Pairwise (· < ·) (issuedIds c n) := by
  induction n generalizing c with
  | zero => simp [issuedIds]
  | succ n ih =>
    simp only [issuedIds, nextMsgId]
    refine List.Pairwise.cons (fun b hb => ?_) (ih (c + 1))
    have := issuedIds_mem_gt (c + 1) n b hb
    omega

end IssuedIdLemmas

/-- C6: the ids handed out by any sequence of `call()` invocations — over
any number of `Client` instances, since `_msg_id` is a class attribute and
`_next_msg_id` a classmethod mutating it — are strictly increasing and
never repeated, so an inbound Response/Error id can match at most one
pending request. -/
theorem request_ids_strictly_increasing_never_reused (c n : Nat) :
    List.Pairwise (· < ·) (issuedIds c n) ∧
    ∀ i, (issuedIds c n).count i ≤ 1 := by
  refine ⟨issuedIds_pairwise c n, fun i => ?_⟩
  have hnd : (issuedIds c n).Nodup :=
    (issuedIds_pairwise c n).imp (fun h => Nat.ne_of_lt h)
  exact List.nodup_iff_count_le_one.mp hnd i

/-- C7: retry semantics of `connect()` on a disconnected client with retry
budget `s.retries`: if attempt `k` (1-based, `k ≤ retries`) succeeds after
`k - 1` transport-level (`HTTPClientError`) failures, `connect()` succeeds
and the state is Connected; if all `retries` attempts fail at transport
level, `connect()` raises. -/
theorem connect_retry_semantics (s : ClientState)
    (attempts : Nat → AttemptOutcome) (k : Nat)
    (hc : s.connected = false) :
    ((1 ≤ k ∧ k ≤ s.retries ∧
        (∀ j, j < k - 1 → isHttpError (attempts j) = true) ∧
        attempts (k - 1) = .success) →
      connectImpl s attempts = .ok { s with connected := true }) ∧
    ((∀ j, j < s.retries → isHttpError (attempts j) = true) →
      connectImpl s attempts
        = .error (.notConnected (connectFailMsg s.wsUrl))) := by
  constructor
  · rintro ⟨hk1, hkr, hf, hsucc⟩
    have hloop : connectLoop attempts 0 s.retries = .ok true := by
      refine connectLoop_firstSuccess attempts (k - 1) 0 s.retries (by omega)
        (fun j hj => ?_) ?_
      · simpa using hf j hj
      · simpa using hsucc
    simp [connectImpl, hloop]
  · intro hf
    have hloop : connectLoop attempts 0 s.retries = .ok false := by
      refine connectLoop_allFail attempts s.retries 0 (fun j hj => ?_)
      simpa using hf j hj
    simp [connectImpl, hloop, hc]

/-- Witness for C7: retries = 3 with two transport failures then success
connects; retries = 3 with three transport failures raises. -/
theorem connect_retry_semantics_witness :
    connectImpl
        { wsUrl := "ws://localhost:6680/mopidy/ws", connected := false,
          autoReconnect := true, retries := 3, connectArgs := [],
          listeners := [], req := [] }
        (fun i => if i < 2 then .httpError 500 else .success)
      = .ok
        { wsUrl := "ws://localhost:6680/mopidy/ws", connected := true,
          autoReconnect := true, retries := 3, connectArgs := [],
          listeners := [], req := [] } ∧
    connectImpl
        { wsUrl := "ws://localhost:6680/mopidy/ws", connected := false,
          autoReconnect := true, retries := 3, connectArgs := [],
          listeners := [], req := [] }
        (fun _ => .httpError 500)
      = .error (.notConnected
          (connectFailMsg "ws://localhost:6680/mopidy/ws")) :=
  ⟨(connect_retry_semantics
      { wsUrl := "ws://localhost:6680/mopidy/ws", connected := false,
        autoReconnect := true, retries := 3, connectArgs := [],
        listeners := [], req := [] }
      (fun i => if i < 2 then .httpError 500 else .success) 3 rfl).1
    ⟨by decide, by decide, by decide, by decide⟩,
   (connect_retry_semantics
      { wsUrl := "ws://localhost:6680/mopidy/ws", connected := false,
        autoReconnect := true, retries := 3, connectArgs := [],
        listeners := [], req := [] }
      (fun _ => .httpError 500) 3 rfl).2 (by decide)⟩

/-- C8: an inbound Event frame (no `jsonrpc` key, an `event` key) schedules
one dispatch carrying the remaining payload fields as the handler keyword
arguments; the dispatch invokes exactly the handlers subscribed to that
event name at dispatch time, once per subscription, in subscription order
(`on_event` appends, so the stored list is in subscription order); and a
mutation of the listener map performed while the fan-out is awaited (such
as an unsubscribe by one of the handlers) does not change the already-built
invocation list. -/
theorem event_dispatch_fanout (s : ClientState) (message : Msg)
    (name : String) (hs : List Nat)
    (hnorpc : message.lookup "jsonrpc" = none)
    (hev : message.lookup "event" = some (.str name))
    (hsubs : s.listeners.lookup name = some hs) :
    onMessage s (.text (some message))
      = .ok ([.scheduleDispatch (.str name) (dictPop message "event")], s) ∧
    dispatchInvocations s.listeners name (dictPop message "event")
      = hs.map (fun h => (h, dictPop message "event")) ∧
    (∀ h : Nat,
      (dispatchInvocations s.listeners name (dictPop message "event")).count
          (h, dictPop message "event") = hs.count h) ∧
    (∀ h' : Nat, (onEvent s.listeners name h').lookup name
      = some (hs ++ [h'])) ∧
    (∀ duringAwait,
      (dispatchRun s.listeners name (dictPop message "event") duringAwait).1
        = hs.map (fun h => (h, dictPop message "event"))) := by
  have hinv : dispatchInvocations s.listeners name (dictPop message "event")
      = hs.map (fun h => (h, dictPop message "event")) := by
    simp [dispatchInvocations, hsubs]
  refine ⟨?_, hinv, fun h => ?_, fun h' => ?_, fun duringAwait => hinv⟩
  · simp [onMessage, hnorpc, hev]
  · rw [hinv]
    exact count_map_pair hs (dictPop message "event") h
  · rw [lookup_onEvent_self, hsubs]
    rfl

/-- Witness for C8: server pushes
`{"event": "volume_changed", "volume": 42}` to a client with two handlers
subscribed to `volume_changed`. -/
theorem event_dispatch_fanout_witness :
    onMessage
        { wsUrl := "ws://localhost:6680/mopidy/ws", connected := true,
          autoReconnect := true, retries := 3, connectArgs := [],
          listeners := [("volume_changed", [1, 2])], req := [] }
        (.text (some [("event", JVal.str "volume_changed"),
                      ("volume", JVal.num 42)]))
      = .ok ([.scheduleDispatch (JVal.str "volume_changed")
              (dictPop [("event", JVal.str "volume_changed"),
                        ("volume", JVal.num 42)] "event")],
          { wsUrl := "ws://localhost:6680/mopidy/ws", connected := true,
            autoReconnect := true, retries := 3, connectArgs := [],
            listeners := [("volume_changed", [1, 2])], req := [] }) ∧
    dispatchInvocations [("volume_changed", [1, 2])] "volume_changed"
        (dictPop [("event", JVal.str "volume_changed"),
                  ("volume", JVal.num 42)] "event")
      = [1, 2].map (fun h =>
          (h, dictPop [("event", JVal.str "volume_changed"),
                       ("volume", JVal.num 42)] "event")) ∧
    (∀ h : Nat,
      (dispatchInvocations [("volume_changed", [1, 2])] "volume_changed"
          (dictPop [("event", JVal.str "volume_changed"),
                    ("volume", JVal.num 42)] "event")).count
          (h, dictPop [("event", JVal.str "volume_changed"),
                       ("volume", JVal.num 42)] "event")
        = [1, 2].count h) ∧
    (∀ h' : Nat,
      (onEvent [("volume_changed", [1, 2])] "volume_changed" h').lookup
          "volume_changed"
        = some ([1, 2] ++ [h'])) ∧
    (∀ duringAwait,
      (dispatchRun [("volume_changed", [1, 2])] "volume_changed"
          (dictPop [("event", JVal.str "volume_changed"),
                    ("volume", JVal.num 42)] "event") duringAwait).1
        = [1, 2].map (fun h =>
            (h, dictPop [("event", JVal.str "volume_changed"),
                         ("volume", JVal.num 42)] "event"))) :=
  event_dispatch_fanout
    { wsUrl := "ws://localhost:6680/mopidy/ws", connected := true,
      autoReconnect := true, retries := 3, connectArgs := [],
      listeners := [("volume_changed", [1, 2])], req := [] }
    [("event", JVal.str "volume_changed"), ("volume", JVal.num 42)]
    "volume_changed" [1, 2] rfl rfl rfl

/-- C1: disconnection (an empty/end-of-stream frame) while requests are
pending is claimed to resolve every pending request with a connection-lost
failure.  The code's `on_message` empty-frame branch only clears
`self._connected` and (when configured) schedules a reconnect: it emits no
`set_result`/`set_exception` action and leaves `self._req` — hence every one
of the N pending futures — untouched, so the awaiting `call()` coroutines
stay suspended forever. -/
theorem onMessage_empty_leaves_pending_unresolved (s : ClientState) :
    ∃ acts : List Action,
      onMessage s .empty = .ok (acts, { s with connected := false }) ∧
      acts.filter isResolveAction = [] ∧
      ({ s with connected := false } : ClientState).req = s.req := by
  cases h : s.autoReconnect with
  | false =>
    exact ⟨[.log "Disconnected from %s"], by simp [onMessage, h], rfl, rfl⟩
  | true =>
    exact ⟨[.log "Disconnected from %s", .log "Reconnecting", .scheduleReconnect],
      by simp [onMessage, h], rfl, rfl⟩

/-- C2: the read-loop handler is claimed never to raise, even on a frame
that is not valid JSON.  `Client.on_message` calls `json.loads` with no
`try/except` (the source's own comment reads `TODO: catch parse exception`),
so for an unparseable frame the parse error escapes the handler: in the
embedding, `onMessage` returns the `.error` branch instead of logging and
dropping. -/
theorem onMessage_unparseable_frame_raises (s : ClientState) :
    onMessage s (.text none) = .error .jsonParse := rfl

/-- C4: `call()` while Disconnected with auto-reconnect enabled is claimed
to have the connection Connected again before the request is sent.  The code
only schedules `self._connect()` with `asyncio.create_task` and immediately
writes the frame — there is no await between the two, so on the concrete
trace below the `send` action is emitted while the state (including the
state after `call` returns control) still has `connected = false`: the
reconnect is pending, not resolved, at send time. -/
theorem call_sends_before_reconnect_resolves :
    call 0
        { wsUrl := "ws://localhost:6680/mopidy/ws", connected := false,
          autoReconnect := true, retries := 3, connectArgs := [],
          listeners := [], req := [] }
        "core.playback.play" []
      = (.ok [.log "Reconnecting", .scheduleReconnect,
              .send (encodeRequest 1 "core.playback.play" [])], 1,
         { wsUrl := "ws://localhost:6680/mopidy/ws", connected := false,
           autoReconnect := true, retries := 3, connectArgs := [],
           listeners := [], req := [1] }) := rfl

/-- C5: `disconnect()` is claimed never to trigger auto-reconnect, including
via the close notification it produces.  Closing the transport makes the
read loop deliver a final empty frame to `on_message`, whose empty-frame
branch schedules `self._connect()` whenever `self._auto_reconnect` is set —
nothing marks the disconnect as intentional.  Concretely: after
`disconnect()` on an auto-reconnect client, the close notification yields a
`scheduleReconnect` action. -/
theorem disconnect_close_notification_schedules_reconnect :
    onMessage
        (disconnect
          { wsUrl := "ws://localhost:6680/mopidy/ws", connected := true,
            autoReconnect := true, retries := 3, connectArgs := [],
            listeners := [], req := [] }).2
        Frame.empty
      = .ok ([.log "Disconnected from %s", .log "Reconnecting", .scheduleReconnect],
          { wsUrl := "ws://localhost:6680/mopidy/ws", connected := false,
            autoReconnect := true, retries := 3, connectArgs := [],
            listeners := [], req := [] }) := rfl

/-- C9 counterexample: the Connection Manager is claimed to pass
caller-supplied transport options through unchanged, overriding none of
them.  With the concrete caller options `{"follow_redirects": True}`,
`Client.connect` stores `follow_redirects = False` (line 158 assigns
`kwargs["follow_redirects"] = False`), so the option reaching
`HTTPRequest` differs from the caller's value. -/
theorem connect_overrides_follow_redirects :
    (effectiveConnectArgs [("follow_redirects", JVal.bool true)]).lookup "follow_redirects"
        = some (JVal.bool false) ∧
    (effectiveConnectArgs [("follow_redirects", JVal.bool true)]).lookup "follow_redirects"
        ≠ [("follow_redirects", JVal.bool true)].lookup "follow_redirects" := by
  constructor
  · decide
  · decide

/-- C9 (amended): every caller-supplied transport option other than
`follow_redirects` is passed through to the transport request unchanged;
`follow_redirects` itself is unconditionally forced to `False`, overriding
any caller-supplied value. -/
theorem connect_args_passthrough_except_follow_redirects (kwargs : Msg) (k : String)
    (hk : k ≠ "follow_redirects") :
    (effectiveConnectArgs kwargs).lookup k = kwargs.lookup k ∧
    (effectiveConnectArgs kwargs).lookup "follow_redirects" = some (JVal.bool false) :=
  ⟨lookup_dictSet_ne kwargs "follow_redirects" k (JVal.bool false) hk,
   lookup_dictSet_self kwargs "follow_redirects" (JVal.bool false)⟩

/-- Witness for the amended C9 at concrete caller options. -/
theorem connect_args_passthrough_witness :
    (effectiveConnectArgs [("validate_cert", JVal.bool true)]).lookup "validate_cert"
        = [("validate_cert", JVal.bool true)].lookup "validate_cert" ∧
    (effectiveConnectArgs [("validate_cert", JVal.bool true)]).lookup "follow_redirects"
        = some (JVal.bool false) :=
  connect_args_passthrough_except_follow_redirects
    [("validate_cert", JVal.bool true)] "validate_cert" (by decide)

/-- C10: `call()` while disconnected with auto-reconnect disabled raises
`NotConnectedError("Not connected")` before the id is allocated, before the
future is registered, and before anything is written: the counter, the
pending map and the whole client state are returned unchanged and no `send`
action is emitted. -/
theorem call_failfast_no_side_effects (msgId : Nat) (s : ClientState)
    (method : String) (params : Msg)
    (h1 : s.connected = false) (h2 : s.autoReconnect = false) :
    call msgId s method params = (.error (.notConnected "Not connected"), msgId, s) := by
  simp [call, h1, h2]

/-- Witness for C10 at a concrete disconnected client. -/
theorem call_failfast_no_side_effects_witness :
    call 7
        { wsUrl := "ws://localhost:6680/mopidy/ws", connected := false,
          autoReconnect := false, retries := 3, connectArgs := [],
          listeners := [], req := [5] }
        "core.playback.play" []
      = (.error (.notConnected "Not connected"), 7,
         { wsUrl := "ws://localhost:6680/mopidy/ws", connected := false,
           autoReconnect := false, retries := 3, connectArgs := [],
           listeners := [], req := [5] }) :=
  call_failfast_no_side_effects 7 _ "core.playback.play" [] rfl rfl

end MopidyClient
